import Mathlib

/-!
Verification development for the TDD workflow engine
(hooks/tdd-phase-guard.py, hooks/tdd-orchestrator.py, hooks/lib/pattern_matcher.py,
hooks/lib/markers.py, tdd_supervisor/markers.py, tdd_supervisor/orchestrator.py).

The Python sources are shallowly embedded: pure fragments become Lean functions,
filesystem marker mutations become explicit operation traces over a marker-state
record, and external command execution becomes an outcome oracle.
-/

namespace TDDWorkflow

/-! ## Python string primitives used by the sources -/

/-- Whitespace characters removed by Python `str.strip()` with no argument
(ASCII subset: space, tab, newline, carriage return, vertical tab, form feed;
the sources only ever store ASCII content in the stripped files). -/
def pyIsSpace (c : Char) : Bool :=
  c == ' ' || c == '\t' || c == '\n' || c == '\r' || c == Char.ofNat 11 || c == Char.ofNat 12

/-- Python `str.strip()` on a character list: drop whitespace from both ends. -/
def pyStripList (l : List Char) : List Char :=
  ((l.dropWhile pyIsSpace).reverse.dropWhile pyIsSpace).reverse

/-- Python `str.strip()`. -/
def pyStrip (s : String) : String :=
  String.mk (pyStripList s.data)

/-- Digit-run scanner for Python `int(...)`: decimal digits with single
underscores allowed between digits (`int("1_0") == 10`), no leading or
trailing underscore, at least one digit.  `prevDigit` records whether the
previous character was a digit (so an underscore may follow). -/
def pyDigitsGo (prevDigit : Bool) (acc : Nat) : List Char → Option Nat
  | [] => if prevDigit then some acc else none
  | c :: rest =>
    if c.isDigit then pyDigitsGo true (acc * 10 + (c.toNat - '0'.toNat)) rest
    else if c == '_' && prevDigit then pyDigitsGo false acc rest
    else none

/-- Nonempty decimal digit run per Python `int` grammar (see `pyDigitsGo`). -/
def pyDigits (l : List Char) : Option Nat :=
  pyDigitsGo false 0 l

/-- Python `int(s)` on the strings the sources can encounter: surrounding
whitespace stripped, optional sign, then a decimal digit run (ASCII digits). -/
def pyInt (s : String) : Option Int :=
  match pyStripList s.data with
  | '+' :: rest => (pyDigits rest).map (fun n => (n : Int))
  | '-' :: rest => (pyDigits rest).map (fun n => -(n : Int))
  | l => (pyDigits l).map (fun n => (n : Int))

/-! ## Pattern matcher (src/hooks/lib/pattern_matcher.py)

`glob_to_regex` (lines 20-44) escapes the pattern with `re.escape`, then turns
`**/` into `(?:.*/)?`, a remaining `**` into `.*`, `*` into `[^/]*`, `?` into
`[^/]`, and wraps the result as `^(?:.*/)?{regex}$`.  Every other character is
regex-escaped, i.e. matches literally.  We embed the produced regex as a token
list (one token per emitted fragment) and interpret the tokens with Python
`re` semantics: `.` matches any character except `'\n'`, character classes
like `[^/]` do match `'\n'`, and the final `$` matches at the end of the
string or just before a trailing `'\n'`. -/

/-- One fragment of the regex emitted by `glob_to_regex`:
`lit c` = regex-escaped literal character, `star` = `[^/]*`,
`qmark` = `[^/]`, `dstar` = `.*`, `dstarSlash` = `(?:.*/)?`. -/
inductive GlobTok where
  | lit (c : Char)
  | star
  | qmark
  | dstar
  | dstarSlash
deriving DecidableEq, Repr

/-- The characters Python `re.escape` prefixes with a backslash (CPython's
`_special_chars_map`, Python 3.7+): `()[]`, braces, `?*+-|^$\.&~#` and the
six ASCII whitespace characters. -/
def reSpecial (c : Char) : Bool :=
  c == '(' || c == ')' || c == '[' || c == ']' ||
  c == Char.ofNat 123 || c == Char.ofNat 125 ||
  c == '?' || c == '*' || c == '+' || c == '-' || c == '|' || c == '^' || c == '$' ||
  c == '\\' || c == '.' || c == '&' || c == '~' || c == '#' || c == ' ' ||
  c == '\t' || c == '\n' || c == '\r' || c == Char.ofNat 11 || c == Char.ofNat 12

/-- Python `re.escape`: prefix every special character with a backslash. -/
def re_escape : List Char → List Char
  | [] => []
  | c :: rest => if reSpecial c then '\\' :: c :: re_escape rest else c :: re_escape rest

/-- Python `str.replace(old, new)` for nonempty `old = o :: os`: scan left to
right, replacing each non-overlapping occurrence.  After emitting `new`, the
`skip` counter consumes the rest of the matched occurrence before scanning
resumes. -/
def strReplaceGo (o : Char) (os new : List Char) : Nat → List Char → List Char
  | _, [] => []
  | Nat.succ skip, _ :: rest => strReplaceGo o os new skip rest
  | 0, c :: rest =>
    if (o :: os).isPrefixOf (c :: rest) then new ++ strReplaceGo o os new os.length rest
    else c :: strReplaceGo o os new 0 rest

/-- Python `str.replace(old, new)`.  Every `old` used below is a nonempty
literal; the empty-`old` branch is unreachable. -/
def strReplaceS (old new s : List Char) : List Char :=
  match old with
  | [] => s
  | o :: os => strReplaceGo o os new 0 s

/-- The body built by `glob_to_regex` (pattern_matcher.py lines 29-41),
transcribed literally: `re.escape` the pattern, swap the escaped glob
wildcards to placeholder text via `str.replace`, then swap the placeholders
to regex fragments — in exactly the source's order.  Because the
replacements are plain text rewrites, a pattern whose own text contains (or
assembles into) placeholder text is rewritten into wildcards as well; this
model reproduces that behavior. -/
def glob_to_regex_chars (pattern : String) : List Char :=
  let r0 := re_escape pattern.data
  let r1 := strReplaceS "\\*\\*".data "__DOUBLE_STAR__".data r0
  let r2 := strReplaceS "\\*".data "__SINGLE_STAR__".data r1
  let r3 := strReplaceS "\\?".data "__QUESTION__".data r2
  let r4 := strReplaceS "__DOUBLE_STAR__/".data "(?:.*/)?".data r3
  let r5 := strReplaceS "__DOUBLE_STAR__".data ".*".data r4
  let r6 := strReplaceS "__SINGLE_STAR__".data "[^/]*".data r5
  strReplaceS "__QUESTION__".data "[^/]".data r6

/-- Reading the emitted regex body back as its fragments.  On every string
`glob_to_regex_chars` can produce, this greedy left-to-right reading is
unambiguous: a literal regex metacharacter always carries the backslash
`re.escape` gave it, the placeholder replacements only rewrite runs of
letters and underscores (so escape pairs stay intact and fragments are
inserted whole), and the fragments contain no letters — hence an unescaped
`(`, `.` or `[` can only be the head of an inserted `(?:.*/)?`, `.*`,
`[^/]*` or `[^/]`, and a `*` in fourth position after `[^/]` can only belong
to `[^/]*`.  The trailing literal fallbacks are unreachable on such
strings. -/
def regexTokens : List Char → List GlobTok
  | [] => []
  | '\\' :: c :: rest => .lit c :: regexTokens rest
  | '(' :: '?' :: ':' :: '.' :: '*' :: '/' :: ')' :: '?' :: rest =>
    .dstarSlash :: regexTokens rest
  | '[' :: '^' :: '/' :: ']' :: '*' :: rest => .star :: regexTokens rest
  | '[' :: '^' :: '/' :: ']' :: rest => .qmark :: regexTokens rest
  | '.' :: '*' :: rest => .dstar :: regexTokens rest
  | c :: rest => .lit c :: regexTokens rest

/-- `glob_to_regex` (pattern_matcher.py lines 20-44) with the produced regex
represented by its fragment list; the `^(?:.*/)?` and `$` wrapper of line 44
is applied by `matches_pattern` below. -/
def glob_to_regex (pattern : String) : List GlobTok :=
  regexTokens (glob_to_regex_chars pattern)

/-- `[^/]*` followed by the continuation `k`: consume any run of characters
other than `'/'` (newlines included: a negated class matches them). -/
def starConsume (k : List Char → Bool) : List Char → Bool
  | [] => k []
  | x :: xs => k (x :: xs) || (decide (x ≠ '/') && starConsume k xs)

/-- `.*` followed by the continuation `k`: consume any run of characters
other than `'\n'` (Python `.` does not match a newline). -/
def dstarConsume (k : List Char → Bool) : List Char → Bool
  | [] => k []
  | x :: xs => k (x :: xs) || (decide (x ≠ '\n') && dstarConsume k xs)

/-- `.*/` followed by the continuation `k`: consume a (possibly empty)
newline-free run and then one `'/'`. -/
def dirsConsume (k : List Char → Bool) : List Char → Bool
  | [] => false
  | x :: xs => (x == '/' && k xs) || (decide (x ≠ '\n') && dirsConsume k xs)

/-- Interpreter for the emitted regex fragments under Python `re` semantics,
anchored at both ends (the caller handles the `$`-before-trailing-newline
rule).  Matching is the existential semantics of the regex: some way of
consuming the input succeeds. -/
def reMatch : List GlobTok → List Char → Bool
  | [], s => s.isEmpty
  | .lit c :: ts, s =>
    match s with
    | [] => false
    | x :: xs => c == x && reMatch ts xs
  | .qmark :: ts, s =>
    match s with
    | [] => false
    | x :: xs => decide (x ≠ '/') && reMatch ts xs
  | .star :: ts, s => starConsume (reMatch ts) s
  | .dstar :: ts, s => dstarConsume (reMatch ts) s
  | .dstarSlash :: ts, s => reMatch ts s || dirsConsume (reMatch ts) s

/-- Does the character list end with `'\n'`?  (Python `$` may match just
before such a trailing newline.) -/
def endsWithNewline (s : List Char) : Bool :=
  match s.getLast? with
  | some c => c == '\n'
  | none => false

/-- `matches_pattern` (pattern_matcher.py lines 47-50): build
`^(?:.*/)?{regex}$` and test it with `re.match`.  The leading `(?:.*/)?` is
the `dstarSlash` token; Python `$` accepts the very end of the string or the
position just before a single trailing newline. -/
def matches_pattern (file_path pattern : String) : Bool :=
  let ts : List GlobTok := .dstarSlash :: glob_to_regex pattern
  reMatch ts file_path.data ||
    (endsWithNewline file_path.data && reMatch ts file_path.data.dropLast)

/-- `matches_any` (pattern_matcher.py lines 53-74) on an explicit pattern
list: true iff some pattern matches (short-circuit on first match). -/
def matches_any (file_path : String) (patterns : List String) : Bool :=
  patterns.any (fun p => matches_pattern file_path p)

/-! ### Glob semantics as worded by the spec (for the refinement claim C2)

The following definitions are written from the spec's words, §4.1: "`**/`
matches zero or more leading path segments; a bare `**` elsewhere matches any
remaining characters including separators; `*` matches any run of characters
excluding the path separator; `?` matches exactly one character excluding the
separator; all other characters match literally", with the always-present
implicit "optional leading directories" anchor. -/

/-- Spec semantics: any run of characters (no newline exception), then `k`. -/
def specAnyConsume (k : List Char → Bool) : List Char → Bool
  | [] => k []
  | x :: xs => k (x :: xs) || specAnyConsume k xs

/-- Spec semantics: one or more path segments (any text ending in `'/'`),
then `k`. -/
def specDirsConsume (k : List Char → Bool) : List Char → Bool
  | [] => false
  | x :: xs => (x == '/' && k xs) || specDirsConsume k xs

/-- The spec's wildcard reading of a glob pattern's own text (§4.1), greedy
left to right: `**/` is one construct, then a bare `**`, then `*`, then `?`;
every other character stands for itself. -/
def specGlobTokens : List Char → List GlobTok
  | '*' :: '*' :: '/' :: rest => .dstarSlash :: specGlobTokens rest
  | '*' :: '*' :: rest => .dstar :: specGlobTokens rest
  | '*' :: rest => .star :: specGlobTokens rest
  | '?' :: rest => .qmark :: specGlobTokens rest
  | c :: rest => .lit c :: specGlobTokens rest
  | [] => []

/-- Spec-worded interpreter for wildcard tokens: `**/` skips zero or
more path segments, a bare `**` matches any remaining characters including
separators, `*` any separator-free run, `?` one separator-free character,
literals match literally, and the whole pattern must consume the whole path. -/
def specTokMatch : List GlobTok → List Char → Bool
  | [], s => s.isEmpty
  | .lit c :: ts, s =>
    match s with
    | [] => false
    | x :: xs => c == x && specTokMatch ts xs
  | .qmark :: ts, s =>
    match s with
    | [] => false
    | x :: xs => decide (x ≠ '/') && specTokMatch ts xs
  | .star :: ts, s => starConsume (specTokMatch ts) s
  | .dstar :: ts, s => specAnyConsume (specTokMatch ts) s
  | .dstarSlash :: ts, s => specTokMatch ts s || specDirsConsume (specTokMatch ts) s

/-- The glob semantics stated by spec §4.1, applied to the pattern's own
wildcard structure, including the implicit optional-leading-directories
anchor. -/
def glob_spec_matches (file_path pattern : String) : Bool :=
  specTokMatch (.dstarSlash :: specGlobTokens pattern.data) file_path.data

/-! ## Marker state (src/hooks/lib/markers.py and src/tdd_supervisor/markers.py)

One marker directory holds: the `tdd-mode` activation marker, the `tdd-phase`
file (its text content, absent when the file does not exist), the three
completion markers, the terminal `tdd-tests-passing` marker, and — in
supervisor mode — further non-marker files (the summary files).  Mutations
performed by the Python code are recorded as an explicit operation trace. -/

/-- The five presence-only marker files of `MarkerManager`. -/
inductive Marker where
  | tddMode
  | requirementsConfirmed
  | interfacesDesigned
  | testsApproved
  | testsPassing
deriving DecidableEq, Repr

/-- One filesystem mutation performed on the marker directory:
`create_marker` / `remove_marker` on a presence marker, `set_phase n`
(writing `str(n)` into `tdd-phase`), or removing the `tdd-phase` file. -/
inductive MarkerOp where
  | createMarker (m : Marker)
  | removeMarker (m : Marker)
  | setPhase (n : Int)
  | removePhaseFile
deriving DecidableEq, Repr

/-- Contents of one marker directory.  `tddPhase` is the text content of the
`tdd-phase` file (`none` = file absent); `otherFiles` stands for the
non-marker files living in the same directory (e.g. the supervisor's summary
files), which none of the marker operations may touch. -/
structure MarkerState where
  tddMode : Bool
  tddPhase : Option String
  requirementsConfirmed : Bool
  interfacesDesigned : Bool
  testsApproved : Bool
  testsPassing : Bool
  otherFiles : List String
deriving DecidableEq, Repr

/-- Effect of one marker operation on the directory contents. -/
def applyOp (st : MarkerState) : MarkerOp → MarkerState
  | .createMarker .tddMode => { st with tddMode := true }
  | .createMarker .requirementsConfirmed => { st with requirementsConfirmed := true }
  | .createMarker .interfacesDesigned => { st with interfacesDesigned := true }
  | .createMarker .testsApproved => { st with testsApproved := true }
  | .createMarker .testsPassing => { st with testsPassing := true }
  | .removeMarker .tddMode => { st with tddMode := false }
  | .removeMarker .requirementsConfirmed => { st with requirementsConfirmed := false }
  | .removeMarker .interfacesDesigned => { st with interfacesDesigned := false }
  | .removeMarker .testsApproved => { st with testsApproved := false }
  | .removeMarker .testsPassing => { st with testsPassing := false }
  | .setPhase n => { st with tddPhase := some (toString n) }
  | .removePhaseFile => { st with tddPhase := none }

/-- Effect of an operation trace, applied left to right. -/
def applyOps (st : MarkerState) (ops : List MarkerOp) : MarkerState :=
  ops.foldl applyOp st

/-- `MarkerManager.get_phase` (markers.py lines 72-84): missing file reads as
phase 1 (no write); otherwise the content is stripped and parsed with `int`;
an unparsable or out-of-range value is repaired by `set_phase(1)` and read as
1.  Returns the phase together with the write trace the call performed. -/
def mm_get_phase (st : MarkerState) : Int × List MarkerOp :=
  match st.tddPhase with
  | none => (1, [])
  | some content =>
    match pyInt (pyStrip content) with
    | some n => if n < 1 || 4 < n then (1, [.setPhase 1]) else (n, [])
    | none => (1, [.setPhase 1])

/-- `SupervisorMarkers.get_phase` (tdd_supervisor/markers.py lines 87-94):
missing file or unparsable content reads as 1; a parsable value is returned
as-is (no range check) and nothing is ever written (empty trace). -/
def sup_get_phase (st : MarkerState) : Int × List MarkerOp :=
  match st.tddPhase with
  | none => (1, [])
  | some content =>
    match pyInt (pyStrip content) with
    | some n => (n, [])
    | none => (1, [])

/-- `MarkerManager.cleanup_all_markers` (markers.py lines 108-119): removes
`tdd-mode`, `tdd-phase` and the three completion markers, deliberately
keeping `tdd-tests-passing`. -/
def cleanup_all_markers_ops : List MarkerOp :=
  [.removeMarker .tddMode, .removePhaseFile, .removeMarker .requirementsConfirmed,
   .removeMarker .interfacesDesigned, .removeMarker .testsApproved]

/-! ## Atomicity model for `set_phase` (claim C7)

`MarkerManager.set_phase` (markers.py lines 86-88) and
`SupervisorMarkers.set_phase` (tdd_supervisor/markers.py lines 96-98) are both
`self.tdd_phase.write_text(str(phase))`.  `Path.write_text` opens the
existing file with mode `'w'` — which truncates it in place — and then writes
the data; there is no temporary file and no rename.  We model a save at the
granularity a concurrent reader can observe: each primitive step yields an
observable file content. -/

/-- Primitive steps a file-replacing save can be built from: truncating the
target in place, writing data into the target, or atomically renaming a
fully-written temporary file over the target. -/
inductive FsWriteStep where
  | truncate
  | writeData (data : String)
  | renameReplace (data : String)
deriving DecidableEq, Repr

/-- Observable content of the target file after one step. -/
def stepContent (_cur : String) : FsWriteStep → String
  | .truncate => ""
  | .writeData d => d
  | .renameReplace d => d

/-- All contents of the target file a concurrent reader can observe while the
step sequence runs (including the initial and final content). -/
def observableContents (old : String) : List FsWriteStep → List String
  | [] => [old]
  | s :: rest => old :: observableContents (stepContent old s) rest

/-- A save is atomic (spec §4.2: "entire file replaced, never partially
written") iff a concurrent reader can only ever observe the old or the new
content. -/
def isAtomicReplace (old new : String) (steps : List FsWriteStep) : Prop :=
  ∀ c ∈ observableContents old steps, c = old ∨ c = new

instance (old new : String) (steps : List FsWriteStep) :
    Decidable (isAtomicReplace old new steps) := by
  unfold isAtomicReplace
  infer_instance

/-- `Path.write_text(data)`: open with truncation, then write the data. -/
def write_text_steps (data : String) : List FsWriteStep :=
  [.truncate, .writeData data]

/-- The step sequence performed by both `set_phase` implementations:
`tdd_phase.write_text(str(phase))`. -/
def set_phase_steps (phase : Int) : List FsWriteStep :=
  write_text_steps (toString phase)

/-! ## Edit Guard (src/hooks/tdd-phase-guard.py)

The guard consumes the marker state, the hook's tool name and file path, and
the active profile's three glob lists.  The `TDDConfig` classification module
is not among the sources; following spec §4.1 it classifies a path against
each pattern list with `matches_any`. -/

/-- Modelled from the spec: `TDDConfig.is_main_source` (module `tdd_config`,
imported by the hooks but not among the sources).  Spec §4.1: a path
classifies as main source iff it matches any glob of the profile's `main`
list; the matching itself is `matches_any` of pattern_matcher.py. -/
def is_main_source (filePath : String) (mainPatterns : List String) : Bool :=
  matches_any filePath mainPatterns

/-- Modelled from the spec: `TDDConfig.is_test_source`, as `is_main_source`
but against the profile's `test` glob list. -/
def is_test_source (filePath : String) (testPatterns : List String) : Bool :=
  matches_any filePath testPatterns

/-- Modelled from the spec: `TDDConfig.is_config_file`, as `is_main_source`
but against the profile's `config` glob list. -/
def is_config_file (filePath : String) (configPatterns : List String) : Bool :=
  matches_any filePath configPatterns

/-- Decision of the PreToolUse guard: no output (= approve) or a block
response carrying a reason and additional context. -/
inductive GuardDecision where
  | allow
  | block (reason : String) (context : String)
deriving DecidableEq, Repr

/-- Modelled from the spec: `format_phase_guard_phase1_block` of the hooks'
`formatters` module (not among the sources).  Spec §4.3 only requires
human-readable guidance naming the blocked file; the exact wording is opaque
to the guard. -/
def format_phase_guard_phase1_block (filePath profileName : String) : String :=
  "Phase 1 blocks source edits. File: " ++ filePath ++ " (profile " ++ profileName ++ ")"

/-- Modelled from the spec: `format_phase_guard_phase2_block` of the missing
`formatters` module, analogous to phase 1. -/
def format_phase_guard_phase2_block (filePath profileName : String) : String :=
  "Phase 2 blocks test edits. File: " ++ filePath ++ " (profile " ++ profileName ++ ")"

/-- Modelled from the spec: `format_phase_guard_phase3_block` of the missing
`formatters` module, analogous to phase 1. -/
def format_phase_guard_phase3_block (filePath profileName : String) : String :=
  "Phase 3 blocks implementation edits. File: " ++ filePath ++ " (profile " ++ profileName ++ ")"

/-- `main` of tdd-phase-guard.py (lines 39-104): allow when TDD mode is
inactive, when the tool is neither `Write` nor `Edit`, or when no file path
is given; otherwise read the phase (`MarkerManager.get_phase`), classify the
path, and apply the phase policy of lines 72-104.  Block reasons are the
literal strings of the source. -/
def tdd_phase_guard (st : MarkerState) (toolName filePath : String)
    (mains tests configs : List String) (profileName : String) : GuardDecision :=
  if !st.tddMode then .allow
  else if toolName ≠ "Write" && toolName ≠ "Edit" then .allow
  else if filePath = "" then .allow
  else
    let phase := (mm_get_phase st).1
    let is_main := is_main_source filePath mains
    let is_test := is_test_source filePath tests
    let is_config := is_config_file filePath configs
    if phase = 1 then
      if is_main || is_test then
        .block "TDD Phase 1: Cannot edit source files during requirements gathering"
          (format_phase_guard_phase1_block filePath profileName)
      else .allow
    else if phase = 2 then
      if is_test then
        .block "TDD Phase 2: Cannot write tests during interface design"
          (format_phase_guard_phase2_block filePath profileName)
      else .allow
    else if phase = 3 then
      if is_main && !is_test && !is_config then
        .block "TDD Phase 3: Cannot edit implementation during test writing"
          (format_phase_guard_phase3_block filePath profileName)
      else .allow
    else .allow

/-! ## Build/Test Orchestrator (src/hooks/tdd-orchestrator.py)

The stop-hook orchestrator.  External command execution (`run_command`,
lines 39-53) is represented by an outcome oracle `runCmd` returning the
`(exit_code, stdout + stderr)` pair; the source already coerces timeouts and
spawn errors into a non-zero exit with a message, so the oracle's result is
exactly what the calling code sees.  Commands come from `TDDConfig.get_command`
(module not among the sources); a configured command is `some cmd`, an
unconfigured (or empty, hence falsy) one is `none`.  Agent guidance
(`AgentLoader.load_phase_agents`) reads fixed agent documents, modelled as
the input function `phaseAgents`. -/

/-- Inputs of one orchestrator invocation that do not live in the marker
directory: the hook event flags, the resolved commands and profile, the agent
guidance per phase, and the external command outcome oracle. -/
structure OrchInput where
  stopHookActive : Bool
  supervisorMode : Bool
  cwdValid : Bool
  sessionId : String
  profileName : String
  compileCmd : Option String
  testCompileCmd : Option String
  testCmd : Option String
  phaseAgents : Int → String
  runCmd : String → Int × String

/-- Output of one orchestrator invocation: no output (implicit approve), a
block response, or an approve response with additional context. -/
inductive OrchDecision where
  | noOutput
  | blockD (reason : String)
  | approveD (context : String)
deriving DecidableEq, Repr

/-- `MarkerManager.get_marker_dir_display` (markers.py lines 121-123). -/
def marker_dir_display (sessionId : String) : String :=
  "~/.claude/tmp/tdd-" ++ sessionId

/-- Modelled from the spec: `format_phase1_block` of the missing `formatters`
module — the phase-1 block reason naming the marker directory (§4.4). -/
def format_phase1_block (markerDir : String) : String :=
  "TDD Phase 1: requirements not confirmed yet. Markers: " ++ markerDir

/-- Modelled from the spec: `format_phase2_compile_error` of the missing
`formatters` module; §4.4 requires the full captured output in the reason. -/
def format_phase2_compile_error (output profileName cmd : String) : String :=
  "TDD Phase 2: compile failed (" ++ cmd ++ ", profile " ++ profileName ++ "): " ++ output

/-- Modelled from the spec: `format_phase2_awaiting_approval` of the missing
`formatters` module. -/
def format_phase2_awaiting_approval (markerDir profileName : String) : String :=
  "TDD Phase 2: awaiting interface approval (profile " ++ profileName ++ "). Markers: " ++ markerDir

/-- Modelled from the spec: `format_phase3_compile_error` of the missing
`formatters` module; §4.4 requires the full captured output in the reason. -/
def format_phase3_compile_error (output profileName cmd : String) : String :=
  "TDD Phase 3: test compile failed (" ++ cmd ++ ", profile " ++ profileName ++ "): " ++ output

/-- Modelled from the spec: `format_phase3_awaiting_approval` of the missing
`formatters` module. -/
def format_phase3_awaiting_approval (markerDir profileName : String) : String :=
  "TDD Phase 3: awaiting test approval (profile " ++ profileName ++ "). Markers: " ++ markerDir

/-- Modelled from the spec: `format_phase4_orchestrator_compile_error` of the
missing `formatters` module; the reason carries the captured output. -/
def format_phase4_orchestrator_compile_error (output profileName : String) : String :=
  "TDD Phase 4: compile failed (profile " ++ profileName ++ "): " ++ output

/-- Modelled from the spec: `format_phase4_orchestrator_test_failure` of the
missing `formatters` module; the reason carries the captured test output. -/
def format_phase4_orchestrator_test_failure (output profileName : String) : String :=
  "TDD Phase 4: tests failed (profile " ++ profileName ++ "): " ++ output

/-- Phase-4 second half (tdd-orchestrator.py lines 188-206): run the `test`
command if configured; a non-zero exit blocks with the test failure reason;
otherwise create `tdd-tests-passing` and run `cleanup_all_markers`.  Returns
(decision, marker operations, commands executed). -/
def orchPhase4Tests (inp : OrchInput) : OrchDecision × List MarkerOp × List String :=
  match inp.testCmd with
  | some cmd =>
    let r := inp.runCmd cmd
    if r.1 ≠ 0 then
      (.blockD (format_phase4_orchestrator_test_failure r.2 inp.profileName ++ inp.phaseAgents 4),
       [], [cmd])
    else
      (.noOutput, .createMarker .testsPassing :: cleanup_all_markers_ops, [cmd])
  | none =>
    (.noOutput, .createMarker .testsPassing :: cleanup_all_markers_ops, [])

/-- Phase 4 (tdd-orchestrator.py lines 177-206): run `compile` first if
configured; non-zero exit blocks immediately (the test command is never
run); otherwise fall through to the test half. -/
def orchPhase4 (inp : OrchInput) : OrchDecision × List MarkerOp × List String :=
  match inp.compileCmd with
  | some cmd =>
    let r := inp.runCmd cmd
    if r.1 ≠ 0 then
      (.blockD (format_phase4_orchestrator_compile_error r.2 inp.profileName ++ inp.phaseAgents 4),
       [], [cmd])
    else
      let t := orchPhase4Tests inp
      (t.1, t.2.1, cmd :: t.2.2)
  | none => orchPhase4Tests inp

/-- Phase 3 (tdd-orchestrator.py lines 153-175): run `testCompile` (falling
back to `compile`) if configured, blocking on failure; then either advance to
phase 4 (`set_phase(4)`) when `tdd-tests-approved` exists, or block awaiting
approval. -/
def orchPhase3 (inp : OrchInput) (st : MarkerState) : OrchDecision × List MarkerOp × List String :=
  let testCompile : Option String :=
    match inp.testCompileCmd with
    | some c => some c
    | none => inp.compileCmd
  let after : OrchDecision × List MarkerOp × List String :=
    if st.testsApproved then
      let r := orchPhase4 inp
      (r.1, .setPhase 4 :: r.2.1, r.2.2)
    else
      (.blockD (format_phase3_awaiting_approval (marker_dir_display inp.sessionId) inp.profileName
          ++ inp.phaseAgents 3), [], [])
  match testCompile with
  | some cmd =>
    let r := inp.runCmd cmd
    if r.1 ≠ 0 then
      (.blockD (format_phase3_compile_error r.2 inp.profileName cmd ++ inp.phaseAgents 3),
       [], [cmd])
    else (after.1, after.2.1, cmd :: after.2.2)
  | none => after

/-- Phase 2 (tdd-orchestrator.py lines 129-151): run `compile` if configured,
blocking on failure; then either advance to phase 3 (`set_phase(3)`) when
`tdd-interfaces-designed` exists, or block awaiting approval. -/
def orchPhase2 (inp : OrchInput) (st : MarkerState) : OrchDecision × List MarkerOp × List String :=
  let after : OrchDecision × List MarkerOp × List String :=
    if st.interfacesDesigned then
      let r := orchPhase3 inp (applyOp st (.setPhase 3))
      (r.1, .setPhase 3 :: r.2.1, r.2.2)
    else
      (.blockD (format_phase2_awaiting_approval (marker_dir_display inp.sessionId) inp.profileName
          ++ inp.phaseAgents 2), [], [])
  match inp.compileCmd with
  | some cmd =>
    let r := inp.runCmd cmd
    if r.1 ≠ 0 then
      (.blockD (format_phase2_compile_error r.2 inp.profileName cmd ++ inp.phaseAgents 2),
       [], [cmd])
    else (after.1, after.2.1, cmd :: after.2.2)
  | none => after

/-- Phase 1 (tdd-orchestrator.py lines 115-127): advance to phase 2
(`set_phase(2)`) when `tdd-requirements-confirmed` exists, else block. -/
def orchPhase1 (inp : OrchInput) (st : MarkerState) : OrchDecision × List MarkerOp × List String :=
  if st.requirementsConfirmed then
    let r := orchPhase2 inp (applyOp st (.setPhase 2))
    (r.1, .setPhase 2 :: r.2.1, r.2.2)
  else
    (.blockD (format_phase1_block (marker_dir_display inp.sessionId) ++ inp.phaseAgents 1), [], [])

/-- Phase dispatch of the sequential `if current_phase == k` chain of `main`;
the final arm is the defensive `set_phase(1)` of line 209 for an unknown
phase value. -/
def orchDispatch (inp : OrchInput) (p : Int) (st : MarkerState) :
    OrchDecision × List MarkerOp × List String :=
  if p = 1 then orchPhase1 inp st
  else if p = 2 then orchPhase2 inp st
  else if p = 3 then orchPhase3 inp st
  else if p = 4 then orchPhase4 inp
  else (.noOutput, [.setPhase 1], [])

/-- `main` of tdd-orchestrator.py (lines 56-209): no-op on a re-entrant stop
event or inactive TDD mode; in supervisor mode only read the phase (which may
repair an invalid value) and emit the phase agents as approve context
(lines 73-88); otherwise read the phase, initialize it to 1 when the phase
file is absent (also clearing a stale `tdd-tests-passing`, lines 90-96),
bail out when the working directory is invalid (lines 99-102), and run the
phase chain.  Returns (decision, marker-operation trace, commands run). -/
def tdd_orchestrator (inp : OrchInput) (st : MarkerState) :
    OrchDecision × List MarkerOp × List String :=
  if inp.stopHookActive then (.noOutput, [], [])
  else if !st.tddMode then (.noOutput, [], [])
  else if inp.supervisorMode then
    let pr := mm_get_phase st
    let agents := inp.phaseAgents pr.1
    (if agents = "" then .noOutput else .approveD agents, pr.2, [])
  else
    let pr := mm_get_phase st
    let st1 := applyOps st pr.2
    let init : Int × List MarkerOp × MarkerState :=
      if st1.tddPhase.isNone then
        (1, pr.2 ++ [.setPhase 1, .removeMarker .testsPassing],
         applyOps st1 [.setPhase 1, .removeMarker .testsPassing])
      else (pr.1, pr.2, st1)
    if !inp.cwdValid then (.noOutput, init.2.1, [])
    else
      let r := orchDispatch inp init.1 init.2.2
      (r.1, init.2.1 ++ r.2.1, r.2.2)

/-! ## Supervisor summary verification (src/tdd_supervisor/orchestrator.py) -/

/-- Python `s.split('\n', 1)` when it produces two parts: the text before the
first newline and everything after it; `none` when `s` has no newline. -/
def splitAtFirstNewline : List Char → Option (List Char × List Char)
  | [] => none
  | '\n' :: rest => some ([], rest)
  | c :: rest => (splitAtFirstNewline rest).map (fun p => (c :: p.1, p.2))

/-- `TDDOrchestrator.GAPS_FOUND_SIGNAL` (orchestrator.py line 100). -/
def GAPS_FOUND_SIGNAL : String := "GAPS_FOUND"

/-- `TDDOrchestrator.SUMMARY_VERIFIED_SIGNAL` (orchestrator.py line 99). -/
def SUMMARY_VERIFIED_SIGNAL : String := "SUMMARY_VERIFIED"

/-- Python `s.startswith(pre)`. -/
def pyStartsWith (s pre : String) : Bool :=
  pre.data.isPrefixOf s.data

/-- The review-resolution step of `TDDOrchestrator._generate_and_verify_summary`
(orchestrator.py lines 357-380), as a function of the initial summary and the
review response: a response starting with `GAPS_FOUND` keeps the stripped
text after its first line (initial summary as fallback when there is no
further line); likewise for `SUMMARY_VERIFIED`; otherwise the response is
used verbatim, with the initial summary only for an empty response. -/
def generate_and_verify_summary (initial_summary review_response : String) : String :=
  if pyStartsWith review_response GAPS_FOUND_SIGNAL then
    match splitAtFirstNewline review_response.data with
    | some p => pyStrip (String.mk p.2)
    | none => initial_summary
  else if pyStartsWith review_response SUMMARY_VERIFIED_SIGNAL then
    match splitAtFirstNewline review_response.data with
    | some p => pyStrip (String.mk p.2)
    | none => initial_summary
  else if review_response = "" then initial_summary
  else review_response

/-! ## Theorems -/

/-- Does a guard decision block the edit? -/
def guardBlocks : GuardDecision → Bool
  | .allow => false
  | .block _ _ => true

/-- A marker state with the given phase-file content, TDD mode active, and
everything else clear. -/
def stWith (phase : Option String) : MarkerState :=
  { tddMode := true, tddPhase := phase, requirementsConfirmed := false,
    interfacesDesigned := false, testsApproved := false, testsPassing := false,
    otherFiles := [] }

/-- Claim C1: with an active scope the Edit Guard blocks exactly per the
phase policy table — phase 1 blocks iff the path classifies as main or test
source, phase 2 iff test source, phase 3 iff main and not test and not
config, phase 4 never; with an inactive scope it always allows; and in phase
3 a path classified both main and test is allowed. -/
theorem C1_edit_guard_policy_table (st : MarkerState) (path profileName : String)
    (mains tests configs : List String) (p : Int)
    (hp : (mm_get_phase st).1 = p) (hpath : path ≠ "") :
    (st.tddMode = true →
      guardBlocks (tdd_phase_guard st "Edit" path mains tests configs profileName) =
        (if p = 1 then is_main_source path mains || is_test_source path tests
         else if p = 2 then is_test_source path tests
         else if p = 3 then
           is_main_source path mains && !is_test_source path tests && !is_config_file path configs
         else false)) ∧
    (st.tddMode = false →
      tdd_phase_guard st "Edit" path mains tests configs profileName = .allow) ∧
    (st.tddMode = true → p = 3 → is_main_source path mains = true →
      is_test_source path tests = true →
      tdd_phase_guard st "Edit" path mains tests configs profileName = .allow) := by
  subst hp
  unfold tdd_phase_guard
  refine ⟨fun hmode => ?_, fun hmode => ?_, fun hmode hp3 hmain htest => ?_⟩
  · simp only [hmode, Bool.not_true, if_neg (by simp : ¬ (false : Bool) = true)]
    simp only [hpath, if_false]
    split_ifs with h1 h2 h3 h4 h5 h6 <;> simp_all [guardBlocks]
  · simp [hmode]
  · simp only [hmode, hp3, hmain, htest]
    split_ifs <;> simp_all

/-- Witness for C1 at a concrete input: phase 1, a main-source path. -/
theorem C1_edit_guard_policy_table_witness :
    guardBlocks (tdd_phase_guard (stWith (some "1")) "Edit" "src/a.ts" ["*.ts"] ["*.spec.ts"] []
      "typescript") = true :=
  by
    have h := C1_edit_guard_policy_table (stWith (some "1")) "src/a.ts" "typescript"
      ["*.ts"] ["*.spec.ts"] [] 1 (by decide) (by decide)
    have h2 := h.1 (by decide)
    simpa using h2

/-- Claim C3 (code bug): the interactive-session store (`MarkerManager`)
repairs every malformed phase value (0, 5, "abc", empty file) to 1 and
persists the repair, but the supervisor-mode store (`SupervisorMarkers`)
returns out-of-range numeric values (0, 5) unrepaired and never persists any
repair, contradicting its own docstring "Get current TDD phase (1-4)". -/
theorem C3_phase_repair_divergence :
    (mm_get_phase (stWith (some "0")) = (1, [.setPhase 1])) ∧
    (mm_get_phase (stWith (some "5")) = (1, [.setPhase 1])) ∧
    (mm_get_phase (stWith (some "abc")) = (1, [.setPhase 1])) ∧
    (mm_get_phase (stWith (some "")) = (1, [.setPhase 1])) ∧
    (sup_get_phase (stWith (some "5")) = (5, [])) ∧
    (sup_get_phase (stWith (some "0")) = (0, [])) ∧
    (sup_get_phase (stWith (some "abc")) = (1, [])) ∧
    (sup_get_phase (stWith (some "")) = (1, [])) := by
  decide

/-- Claim C7 (code bug): `set_phase` saves by `write_text`, i.e. an in-place
truncate followed by a write; a concurrent reader can observe the truncated
empty file, which is neither the old nor the new record, so the save is not
an atomic whole-file replacement. -/
theorem C7_set_phase_not_atomic :
    set_phase_steps 2 = [.truncate, .writeData "2"] ∧
    observableContents "4" (set_phase_steps 2) = ["4", "", "2"] ∧
    ¬ isAtomicReplace "4" "2" (set_phase_steps 2) := by
  refine ⟨by decide, by decide, ?_⟩
  intro h
  have := h "" (by decide)
  simp at this

/-- Claim C8: the summary-verification step keeps the stripped text after the
marker's first line for a response leading with `GAPS_FOUND` (discarding the
initial summary) or with `SUMMARY_VERIFIED`, falls back to the initial
summary when no line follows the marker, uses an unrecognized response
verbatim, and uses the initial summary only for an empty response. -/
theorem C8_summary_review_resolution (initial review : String) :
    (pyStartsWith review GAPS_FOUND_SIGNAL = true →
      (∀ before after, splitAtFirstNewline review.data = some (before, after) →
        generate_and_verify_summary initial review = pyStrip (String.mk after)) ∧
      (splitAtFirstNewline review.data = none →
        generate_and_verify_summary initial review = initial)) ∧
    (pyStartsWith review GAPS_FOUND_SIGNAL = false →
      pyStartsWith review SUMMARY_VERIFIED_SIGNAL = true →
      (∀ before after, splitAtFirstNewline review.data = some (before, after) →
        generate_and_verify_summary initial review = pyStrip (String.mk after)) ∧
      (splitAtFirstNewline review.data = none →
        generate_and_verify_summary initial review = initial)) ∧
    (pyStartsWith review GAPS_FOUND_SIGNAL = false →
      pyStartsWith review SUMMARY_VERIFIED_SIGNAL = false →
      generate_and_verify_summary initial review =
        (if review = "" then initial else review)) := by
  refine ⟨fun hg => ⟨fun before after hsplit => ?_, fun hsplit => ?_⟩,
    fun hg hv => ⟨fun before after hsplit => ?_, fun hsplit => ?_⟩, fun hg hv => ?_⟩
  · unfold generate_and_verify_summary
    simp [hg, hsplit]
  · unfold generate_and_verify_summary
    simp [hg, hsplit]
  · unfold generate_and_verify_summary
    simp [hg, hv, hsplit]
  · unfold generate_and_verify_summary
    simp [hg, hv, hsplit]
  · unfold generate_and_verify_summary
    simp [hg, hv]

/-- Witness for C8: a gaps-found response with a corrected line keeps exactly
the corrected text. -/
theorem C8_summary_review_resolution_witness :
    generate_and_verify_summary "first draft" "GAPS_FOUND\nfixed summary" =
      pyStrip (String.mk "fixed summary".data) :=
  ((C8_summary_review_resolution "first draft" "GAPS_FOUND\nfixed summary").1
    (by decide)).1 "GAPS_FOUND".data "fixed summary".data (by decide)

/-- A concrete orchestrator input in supervisor mode: no agents configured,
all outcomes benign. -/
def supInput : OrchInput :=
  { stopHookActive := false, supervisorMode := true, cwdValid := true,
    sessionId := "s", profileName := "p", compileCmd := none,
    testCompileCmd := none, testCmd := none, phaseAgents := fun _ => "",
    runCmd := fun _ => (0, "") }

/-- Counterexample to C9 as stated: in supervisor mode, with a malformed
persisted phase ("abc"), the stop-hook orchestrator does mutate persisted
state — the phase read repairs the value by calling `set_phase(1)`. -/
theorem C9_counterexample :
    (tdd_orchestrator supInput (stWith (some "abc"))).2.1 = [.setPhase 1] ∧
    [MarkerOp.setPhase 1] ≠ [] := by
  decide

/-- Claim C9 as amended: in supervisor mode the orchestrator runs no external
command, creates or removes no marker, performs no write beyond the phase
read's defensive repair `set_phase(1)` of a malformed phase value, never
blocks, and at most emits an approve response carrying the phase-agent
guidance. -/
theorem C9_supervisor_mode_frame (inp : OrchInput) (st : MarkerState)
    (hsup : inp.supervisorMode = true) :
    (tdd_orchestrator inp st).2.2 = [] ∧
    ((tdd_orchestrator inp st).2.1 = [] ∨ (tdd_orchestrator inp st).2.1 = [.setPhase 1]) ∧
    (∀ m, MarkerOp.createMarker m ∉ (tdd_orchestrator inp st).2.1 ∧
          MarkerOp.removeMarker m ∉ (tdd_orchestrator inp st).2.1) ∧
    (∀ reason, (tdd_orchestrator inp st).1 ≠ .blockD reason) ∧
    ((tdd_orchestrator inp st).1 = .noOutput ∨
     (tdd_orchestrator inp st).1 = .approveD (inp.phaseAgents (mm_get_phase st).1)) := by
  have hops : (mm_get_phase st).2 = [] ∨ (mm_get_phase st).2 = [.setPhase 1] := by
    unfold mm_get_phase
    rcases st.tddPhase with _ | content
    · simp
    · rcases hpi : pyInt (pyStrip content) with _ | n
      · simp [hpi]
      · simp only [hpi]
        split_ifs <;> simp
  rcases hstop : inp.stopHookActive with _ | _
  · rcases hmode : st.tddMode with _ | _
    · have hr : tdd_orchestrator inp st = (.noOutput, [], []) := by
        unfold tdd_orchestrator
        simp [hstop, hmode]
      rw [hr]
      simp
    · have hr : tdd_orchestrator inp st =
          ((if inp.phaseAgents (mm_get_phase st).1 = "" then .noOutput
            else .approveD (inp.phaseAgents (mm_get_phase st).1)), (mm_get_phase st).2, []) := by
        unfold tdd_orchestrator
        simp [hstop, hmode, hsup]
      rw [hr]
      refine ⟨rfl, hops, fun m => ?_, fun reason => ?_, ?_⟩
      · rcases hops with h | h <;> simp [h]
      · split_ifs <;> simp
      · split_ifs with h <;> simp
  · have hr : tdd_orchestrator inp st = (.noOutput, [], []) := by
      unfold tdd_orchestrator
      simp [hstop]
    rw [hr]
    simp

/-- Witness for C9 (amended) at a concrete supervisor-mode input. -/
theorem C9_supervisor_mode_frame_witness :
    (tdd_orchestrator supInput (stWith (some "abc"))).2.2 = [] ∧
    ((tdd_orchestrator supInput (stWith (some "abc"))).2.1 = [] ∨
     (tdd_orchestrator supInput (stWith (some "abc"))).2.1 = [.setPhase 1]) ∧
    (∀ m, MarkerOp.createMarker m ∉ (tdd_orchestrator supInput (stWith (some "abc"))).2.1 ∧
          MarkerOp.removeMarker m ∉ (tdd_orchestrator supInput (stWith (some "abc"))).2.1) ∧
    (∀ reason, (tdd_orchestrator supInput (stWith (some "abc"))).1 ≠ .blockD reason) ∧
    ((tdd_orchestrator supInput (stWith (some "abc"))).1 = .noOutput ∨
     (tdd_orchestrator supInput (stWith (some "abc"))).1 =
       .approveD (supInput.phaseAgents (mm_get_phase (stWith (some "abc"))).1)) :=
  C9_supervisor_mode_frame supInput (stWith (some "abc")) rfl

/-- Claim C4: in phase 4 the orchestrator runs compile before test; a
non-zero compile exit means the test command is never run; and when compile
exits 0 but test exits non-zero it blocks with the test failure while
performing no marker operation at all, so the persisted state (phase 4
included) is unchanged. -/
theorem C4_phase4_failure_paths (inp : OrchInput) (st : MarkerState)
    (h1 : inp.stopHookActive = false) (h2 : inp.supervisorMode = false)
    (h3 : inp.cwdValid = true) (h4 : st.tddMode = true)
    (h5 : st.tddPhase = some "4") (cc tc : String)
    (h6 : inp.compileCmd = some cc) (h7 : inp.testCmd = some tc) :
    ((inp.runCmd cc).1 ≠ 0 →
      (tdd_orchestrator inp st).2.2 = [cc] ∧
      (tdd_orchestrator inp st).1 =
        .blockD (format_phase4_orchestrator_compile_error (inp.runCmd cc).2 inp.profileName
          ++ inp.phaseAgents 4) ∧
      (tdd_orchestrator inp st).2.1 = []) ∧
    ((inp.runCmd cc).1 = 0 → (inp.runCmd tc).1 ≠ 0 →
      (tdd_orchestrator inp st).1 =
        .blockD (format_phase4_orchestrator_test_failure (inp.runCmd tc).2 inp.profileName
          ++ inp.phaseAgents 4) ∧
      (tdd_orchestrator inp st).2.2 = [cc, tc] ∧
      (tdd_orchestrator inp st).2.1 = [] ∧
      applyOps st (tdd_orchestrator inp st).2.1 = st) := by
  have hm : mm_get_phase st = (4, []) := by
    unfold mm_get_phase
    rw [h5]
    decide
  have hrun : tdd_orchestrator inp st = orchPhase4 inp := by
    unfold tdd_orchestrator orchDispatch
    simp [h1, h2, h3, h4, hm, h5, applyOps]
  rw [hrun]
  constructor
  · intro hcc
    have h : orchPhase4 inp =
        (.blockD (format_phase4_orchestrator_compile_error (inp.runCmd cc).2 inp.profileName
          ++ inp.phaseAgents 4), [], [cc]) := by
      unfold orchPhase4
      rw [h6]
      simp [hcc]
    rw [h]
    exact ⟨rfl, rfl, rfl⟩
  · intro hc0 ht
    have h : orchPhase4 inp =
        (.blockD (format_phase4_orchestrator_test_failure (inp.runCmd tc).2 inp.profileName
          ++ inp.phaseAgents 4), [], [cc, tc]) := by
      unfold orchPhase4 orchPhase4Tests
      rw [h6, h7]
      simp [hc0, ht]
    rw [h]
    exact ⟨rfl, rfl, rfl, rfl⟩

/-- A concrete phase-4 orchestrator input whose compile command exits with
`compileExit` and whose test command exits with `testExit`. -/
def p4Input (compileExit testExit : Int) : OrchInput :=
  { stopHookActive := false, supervisorMode := false, cwdValid := true,
    sessionId := "s", profileName := "p", compileCmd := some "make",
    testCompileCmd := none, testCmd := some "make test",
    phaseAgents := fun _ => "",
    runCmd := fun c => if c = "make" then (compileExit, "cout") else (testExit, "tout") }

/-- Witness for C4: compile succeeds, test fails — block with the test
failure, both commands run in order, state untouched. -/
theorem C4_phase4_failure_paths_witness :
    (tdd_orchestrator (p4Input 0 1) (stWith (some "4"))).1 =
      .blockD (format_phase4_orchestrator_test_failure ((p4Input 0 1).runCmd "make test").2
        (p4Input 0 1).profileName ++ (p4Input 0 1).phaseAgents 4) ∧
    (tdd_orchestrator (p4Input 0 1) (stWith (some "4"))).2.2 = ["make", "make test"] ∧
    (tdd_orchestrator (p4Input 0 1) (stWith (some "4"))).2.1 = [] ∧
    applyOps (stWith (some "4")) (tdd_orchestrator (p4Input 0 1) (stWith (some "4"))).2.1 =
      stWith (some "4") :=
  (C4_phase4_failure_paths (p4Input 0 1) (stWith (some "4")) rfl rfl rfl rfl rfl
    "make" "make test" rfl rfl).2 (by decide) (by decide)

/-- Claim C5: when phase 4 succeeds (compile exits 0, then test exits 0),
the orchestrator first creates the `tdd-tests-passing` marker and then runs
the cleanup that removes exactly `tdd-mode`, `tdd-phase` and the three
completion markers; afterwards the tests-passing marker — and only it — is
present, and nothing else in the directory was touched. -/
theorem C5_phase4_success_cleanup (inp : OrchInput) (st : MarkerState)
    (h1 : inp.stopHookActive = false) (h2 : inp.supervisorMode = false)
    (h3 : inp.cwdValid = true) (h4 : st.tddMode = true)
    (h5 : st.tddPhase = some "4") (cc tc : String)
    (h6 : inp.compileCmd = some cc) (h7 : inp.testCmd = some tc)
    (hc0 : (inp.runCmd cc).1 = 0) (ht0 : (inp.runCmd tc).1 = 0) :
    (tdd_orchestrator inp st).1 = .noOutput ∧
    (tdd_orchestrator inp st).2.1 =
      [.createMarker .testsPassing, .removeMarker .tddMode, .removePhaseFile,
       .removeMarker .requirementsConfirmed, .removeMarker .interfacesDesigned,
       .removeMarker .testsApproved] ∧
    (tdd_orchestrator inp st).2.2 = [cc, tc] ∧
    applyOps st (tdd_orchestrator inp st).2.1 =
      { tddMode := false, tddPhase := none, requirementsConfirmed := false,
        interfacesDesigned := false, testsApproved := false, testsPassing := true,
        otherFiles := st.otherFiles } := by
  have hm : mm_get_phase st = (4, []) := by
    unfold mm_get_phase
    rw [h5]
    decide
  have hrun : tdd_orchestrator inp st = orchPhase4 inp := by
    unfold tdd_orchestrator orchDispatch
    simp [h1, h2, h3, h4, hm, h5, applyOps]
  have h : orchPhase4 inp =
      (.noOutput, .createMarker .testsPassing :: cleanup_all_markers_ops, [cc, tc]) := by
    unfold orchPhase4 orchPhase4Tests
    rw [h6, h7]
    simp [hc0, ht0]
  rw [hrun, h]
  refine ⟨rfl, by simp [cleanup_all_markers_ops], rfl, ?_⟩
  simp [cleanup_all_markers_ops, applyOps, applyOp]

/-- Witness for C5: both commands succeed — terminal marker created, all
other markers cleared. -/
theorem C5_phase4_success_cleanup_witness :
    (tdd_orchestrator (p4Input 0 0) (stWith (some "4"))).1 = .noOutput ∧
    (tdd_orchestrator (p4Input 0 0) (stWith (some "4"))).2.1 =
      [.createMarker .testsPassing, .removeMarker .tddMode, .removePhaseFile,
       .removeMarker .requirementsConfirmed, .removeMarker .interfacesDesigned,
       .removeMarker .testsApproved] ∧
    (tdd_orchestrator (p4Input 0 0) (stWith (some "4"))).2.2 = ["make", "make test"] ∧
    applyOps (stWith (some "4")) (tdd_orchestrator (p4Input 0 0) (stWith (some "4"))).2.1 =
      { tddMode := false, tddPhase := none, requirementsConfirmed := false,
        interfacesDesigned := false, testsApproved := false, testsPassing := true,
        otherFiles := (stWith (some "4")).otherFiles } :=
  C5_phase4_success_cleanup (p4Input 0 0) (stWith (some "4")) rfl rfl rfl rfl rfl
    "make" "make test" rfl rfl (by decide) (by decide)

/-! ### Equivalence of the compiled matcher with the spec's glob semantics
on newline-free paths (claims C2 and C10).  The two interpreters differ only
in Python's newline quirks (`.` never matches `'\n'`; `$` also matches just
before a trailing `'\n'`), so they agree whenever the path contains no
newline. -/

theorem starConsume_congr (k k' : List Char → Bool) (s : List Char)
    (h : ∀ v, v <:+ s → k v = k' v) : starConsume k s = starConsume k' s := by
  induction s with
  | nil => simp [starConsume, h [] List.nil_suffix]
  | cons x xs ih =>
    simp only [starConsume]
    rw [h (x :: xs) (List.suffix_refl _),
      ih (fun v hv => h v (hv.trans (List.suffix_cons x xs)))]

theorem dstarConsume_eq_specAny (k k' : List Char → Bool) (s : List Char)
    (hnl : '\n' ∉ s) (h : ∀ v, v <:+ s → k v = k' v) :
    dstarConsume k s = specAnyConsume k' s := by
  induction s with
  | nil => simp [dstarConsume, specAnyConsume, h [] List.nil_suffix]
  | cons x xs ih =>
    have hx : x ≠ '\n' := fun hx' => hnl (hx' ▸ List.mem_cons_self x xs)
    simp only [dstarConsume, specAnyConsume]
    rw [h (x :: xs) (List.suffix_refl _),
      ih (fun hm => hnl (List.mem_cons_of_mem _ hm))
        (fun v hv => h v (hv.trans (List.suffix_cons x xs)))]
    simp [hx]

theorem dirsConsume_eq_specDirs (k k' : List Char → Bool) (s : List Char)
    (hnl : '\n' ∉ s) (h : ∀ v, v <:+ s → k v = k' v) :
    dirsConsume k s = specDirsConsume k' s := by
  induction s with
  | nil => simp [dirsConsume, specDirsConsume]
  | cons x xs ih =>
    have hx : x ≠ '\n' := fun hx' => hnl (hx' ▸ List.mem_cons_self x xs)
    simp only [dirsConsume, specDirsConsume]
    rw [h xs (List.suffix_cons x xs),
      ih (fun hm => hnl (List.mem_cons_of_mem _ hm))
        (fun v hv => h v (hv.trans (List.suffix_cons x xs)))]
    simp [hx]

theorem reMatch_eq_specTokMatch (ts : List GlobTok) :
    ∀ s : List Char, '\n' ∉ s → reMatch ts s = specTokMatch ts s := by
  induction ts with
  | nil => intro s _; rfl
  | cons t ts ih =>
    intro s hnl
    cases t with
    | lit c =>
      cases s with
      | nil => rfl
      | cons x xs =>
        simp only [reMatch, specTokMatch]
        rw [ih xs (fun hm => hnl (List.mem_cons_of_mem _ hm))]
    | qmark =>
      cases s with
      | nil => rfl
      | cons x xs =>
        simp only [reMatch, specTokMatch]
        rw [ih xs (fun hm => hnl (List.mem_cons_of_mem _ hm))]
    | star =>
      simp only [reMatch, specTokMatch]
      exact starConsume_congr _ _ s (fun v hv => ih v (fun hm => hnl (hv.subset hm)))
    | dstar =>
      simp only [reMatch, specTokMatch]
      exact dstarConsume_eq_specAny _ _ s hnl (fun v hv => ih v (fun hm => hnl (hv.subset hm)))
    | dstarSlash =>
      simp only [reMatch, specTokMatch]
      rw [ih s hnl,
        dirsConsume_eq_specDirs _ _ s hnl (fun v hv => ih v (fun hm => hnl (hv.subset hm)))]

theorem endsWithNewline_eq_false (s : List Char) (h : '\n' ∉ s) :
    endsWithNewline s = false := by
  unfold endsWithNewline
  cases hl : s.getLast? with
  | none => rfl
  | some c =>
    have hc : c ≠ '\n' := fun h' => h (h' ▸ List.mem_of_mem_getLast? hl)
    simp [hc]

/-- Claim C2 as amended: for every pattern and every newline-free path, the
compiled matcher realizes the spec's glob interpretation of the fragment
sequence it emitted; and whenever the compiler translates the pattern
canonically — its emitted fragments are exactly the pattern's own wildcard
structure, which holds for every pattern whose text does not collide with
the internal placeholder strings — the matcher agrees with the spec's glob
semantics of the pattern itself.  In particular `src/**/*.ts` matches
`src/a/b/c.ts` and not `test/c.ts`, and `*.spec.ts` matches
`deep/dir/x.spec.ts`.  (The two exclusions are forced: on paths with a
newline, Python's `$` and `.` diverge from the stated semantics; on patterns
containing placeholder text such as the literal `__DOUBLE_STAR__`, the plain
text replacement rewrites the pattern into wildcards — see the
counterexample for both.) -/
theorem C2_glob_semantics (pattern path : String) (h : '\n' ∉ path.data) :
    matches_pattern path pattern =
      specTokMatch (.dstarSlash :: glob_to_regex pattern) path.data ∧
    (glob_to_regex pattern = specGlobTokens pattern.data →
      matches_pattern path pattern = glob_spec_matches path pattern) ∧
    matches_pattern "src/a/b/c.ts" "src/**/*.ts" = true ∧
    matches_pattern "test/c.ts" "src/**/*.ts" = false ∧
    matches_pattern "deep/dir/x.spec.ts" "*.spec.ts" = true := by
  refine ⟨?_, fun hcanon => ?_, by decide, by decide, by decide⟩
  · unfold matches_pattern
    rw [endsWithNewline_eq_false _ h]
    simp only [Bool.false_and, Bool.or_false]
    exact reMatch_eq_specTokMatch _ _ h
  · unfold matches_pattern glob_spec_matches
    rw [endsWithNewline_eq_false _ h, hcanon]
    simp only [Bool.false_and, Bool.or_false]
    exact reMatch_eq_specTokMatch _ _ h

/-- Counterexample to C2 as stated, at both points where the code leaves the
stated semantics: the path "a\n" (a trailing newline, which Python's `$`
accepts) and the pattern "__DOUBLE_STAR__" (whose literal text the
`str.replace` pipeline rewrites into the wildcard regex `.*`, so it matches
the unrelated newline-free path "x"). -/
theorem C2_glob_semantics_counterexample :
    (matches_pattern "a\n" "a" = true ∧ glob_spec_matches "a\n" "a" = false) ∧
    (matches_pattern "x" "__DOUBLE_STAR__" = true ∧
     glob_spec_matches "x" "__DOUBLE_STAR__" = false ∧ ('\n' ∉ "x".data)) := by
  decide

/-- Witness for C2 at a concrete newline-free path and canonically compiled
pattern. -/
theorem C2_glob_semantics_witness :
    ('\n' ∉ "src/a/b/c.ts".data) ∧
    (glob_to_regex "src/**/*.ts" = specGlobTokens "src/**/*.ts".data) ∧
    matches_pattern "src/a/b/c.ts" "src/**/*.ts" =
      glob_spec_matches "src/a/b/c.ts" "src/**/*.ts" :=
  ⟨by decide, by decide,
    (C2_glob_semantics "src/**/*.ts" "src/a/b/c.ts" (by decide)).2.1 (by decide)⟩

theorem dirsConsume_prepend (k : List Char → Bool) (d s : List Char)
    (hd : '\n' ∉ d) (h : (k s || dirsConsume k s) = true) :
    dirsConsume k (d ++ '/' :: s) = true := by
  induction d with
  | nil =>
    simp only [List.nil_append, dirsConsume]
    simpa using h
  | cons c d' ih =>
    have hc : c ≠ '\n' := fun hc' => hd (hc' ▸ List.mem_cons_self c d')
    have hih := ih (fun hm => hd (List.mem_cons_of_mem _ hm))
    simp only [List.cons_append, dirsConsume, List.append_eq]
    simp only [List.append_eq] at hih
    rw [hih]
    simp [hc]

/-- Claim C10 as amended: matching is invariant under prepending a
newline-free directory part — if `x` matches pattern `p` then so does
`d ++ "/" ++ x` for any newline-free `d` (the optional leading-directories
anchor absorbs the extra segments).  For a `d` containing a newline the code
diverges because the anchor's `.*` cannot cross newlines — see the
counterexample. -/
theorem C10_prepend_invariance (pattern x d : String) (hd : '\n' ∉ d.data)
    (hx : matches_pattern x pattern = true) :
    matches_pattern (d ++ "/" ++ x) pattern = true := by
  unfold matches_pattern at hx ⊢
  have hdata : (d ++ "/" ++ x).data = d.data ++ '/' :: x.data := by
    simp [String.data_append]
  rw [hdata]
  rcases Bool.or_eq_true_iff.mp hx with h1 | h2
  · -- direct match on x: push it under the optional-directories anchor
    have : dirsConsume (reMatch (glob_to_regex pattern)) (d.data ++ '/' :: x.data) = true := by
      apply dirsConsume_prepend _ _ _ hd
      simpa [reMatch] using h1
    simp only [reMatch]
    simp [this]
  · -- match via the trailing-newline variant of x
    simp only [Bool.and_eq_true] at h2
    obtain ⟨hend, hrest⟩ := h2
    have hne : x.data ≠ [] := by
      intro hnil
      rw [hnil] at hend
      simp [endsWithNewline] at hend
    have hend' : endsWithNewline (d.data ++ '/' :: x.data) = true := by
      unfold endsWithNewline at hend ⊢
      have : (d.data ++ '/' :: x.data).getLast? = x.data.getLast? := by
        rw [List.getLast?_append_of_ne_nil d.data (by simp)]
        exact List.getLast?_append_of_ne_nil ['/'] hne
      rw [this]
      rcases hgl : x.data.getLast? with _ | c
      · rw [hgl] at hend; exact hend
      · rw [hgl] at hend; exact hend
    have hdrop : (d.data ++ '/' :: x.data).dropLast = d.data ++ '/' :: x.data.dropLast := by
      rw [List.dropLast_append_of_ne_nil d.data (by simp)]
      have : '/' :: x.data = ['/'] ++ x.data := rfl
      rw [this, List.dropLast_append_of_ne_nil ['/'] hne]
      rfl
    have : dirsConsume (reMatch (glob_to_regex pattern)) (d.data ++ '/' :: x.data.dropLast)
        = true := by
      apply dirsConsume_prepend _ _ _ hd
      simpa [reMatch] using hrest
    apply Bool.or_eq_true_iff.mpr
    right
    rw [hend', hdrop]
    simp only [reMatch]
    simp [this]

/-- Counterexample to C10 as stated: "a" matches pattern "a", but prepending
the directory segment "b\nc" (a legal directory name containing a newline)
yields "b\nc/a", which the compiled matcher rejects. -/
theorem C10_prepend_invariance_counterexample :
    matches_pattern "a" "a" = true ∧ matches_pattern "b\nc/a" "a" = false := by
  decide

/-- Witness for C10 at a concrete input. -/
theorem C10_prepend_invariance_witness :
    ('\n' ∉ "src".data) ∧ matches_pattern ("src" ++ "/" ++ "a.ts") "*.ts" = true :=
  ⟨by decide, C10_prepend_invariance "*.ts" "a.ts" "src" (by decide) (by decide)⟩

/-! ### Idempotence of the orchestrator (claim C6).

The proof is by cases on how far the phase chain advances during the first
invocation: either nothing was written (the second invocation is literally
the same computation), or the run advanced to a deeper phase `j` and blocked
there (the second invocation enters directly at `j` with the same flags and
command outcomes and reproduces the block), or phase 4 completed (the
cleanup removed `tdd-mode`, so the second invocation is a no-op, like the
first's no-output success). -/

theorem applyOps_append (st : MarkerState) (a b : List MarkerOp) :
    applyOps st (a ++ b) = applyOps (applyOps st a) b := by
  simp [applyOps, List.foldl_append]

theorem applyOps_nil (st : MarkerState) : applyOps st [] = st := rfl

theorem mm_get_phase_of_toString (s : MarkerState) (j : Int)
    (h : s.tddPhase = some (toString j)) (hj : j = 1 ∨ j = 2 ∨ j = 3 ∨ j = 4) :
    mm_get_phase s = (j, []) := by
  rcases hj with rfl | rfl | rfl | rfl <;>
    · unfold mm_get_phase
      rw [h]
      decide

/-- Entering `main` with a clean phase read (no repair, file present) is
exactly the phase dispatch. -/
theorem tdd_orchestrator_entry (inp : OrchInput) (s : MarkerState) (k : Int)
    (hstop : inp.stopHookActive = false) (hsup : inp.supervisorMode = false)
    (hcwd : inp.cwdValid = true) (hmode : s.tddMode = true)
    (hmm : mm_get_phase s = (k, [])) (hph : s.tddPhase.isNone = false) :
    tdd_orchestrator inp s = orchDispatch inp k s := by
  unfold tdd_orchestrator
  simp [hstop, hsup, hcwd, hmode, hmm, hph, applyOps]

theorem orchPhase4_cases (inp : OrchInput) :
    (orchPhase4 inp).2.1 = [] ∨
    ((orchPhase4 inp).1 = .noOutput ∧
     (orchPhase4 inp).2.1 = .createMarker .testsPassing :: cleanup_all_markers_ops) := by
  unfold orchPhase4 orchPhase4Tests
  rcases inp.compileCmd with _ | cmd <;> rcases inp.testCmd with _ | tcmd <;>
    simp <;> split_ifs <;> simp

theorem orchPhase3_cases (inp : OrchInput) (st : MarkerState) :
    (orchPhase3 inp st).2.1 = [] ∨
    ((orchPhase3 inp st).2.1 = [.setPhase 4] ∧
     (orchPhase3 inp st).1 = (orchPhase4 inp).1 ∧ (orchPhase4 inp).2.1 = []) ∨
    ((orchPhase3 inp st).1 = .noOutput ∧
     (orchPhase3 inp st).2.1 =
       .setPhase 4 :: .createMarker .testsPassing :: cleanup_all_markers_ops) := by
  unfold orchPhase3
  rcases h4 : orchPhase4 inp with ⟨d4, ops4, ran4⟩
  rcases orchPhase4_cases inp with h4c | ⟨h4a, h4b⟩ <;> rw [h4] at * <;>
    rcases hta : st.testsApproved with _ | _ <;>
    rcases htc : inp.testCompileCmd with _ | c <;>
    rcases hcc : inp.compileCmd with _ | cc <;>
    simp_all <;> split_ifs <;> simp_all

theorem orchPhase2_cases (inp : OrchInput) (st : MarkerState) :
    (orchPhase2 inp st).2.1 = [] ∨
    ((orchPhase2 inp st).2.1 = [.setPhase 3] ∧
     (orchPhase2 inp st).1 = (orchPhase3 inp (applyOp st (.setPhase 3))).1 ∧
     (orchPhase3 inp (applyOp st (.setPhase 3))).2.1 = []) ∨
    ((orchPhase2 inp st).2.1 = [.setPhase 3, .setPhase 4] ∧
     (orchPhase2 inp st).1 = (orchPhase4 inp).1 ∧ (orchPhase4 inp).2.1 = []) ∨
    ((orchPhase2 inp st).1 = .noOutput ∧
     (orchPhase2 inp st).2.1 =
       .setPhase 3 :: .setPhase 4 :: .createMarker .testsPassing :: cleanup_all_markers_ops) := by
  unfold orchPhase2
  rcases h3 : orchPhase3 inp (applyOp st (.setPhase 3)) with ⟨d3, ops3, ran3⟩
  rcases orchPhase3_cases inp (applyOp st (.setPhase 3)) with h3c | ⟨h3a, h3b, h3d⟩ | ⟨h3a, h3b⟩ <;>
    rw [h3] at * <;>
    rcases hid : st.interfacesDesigned with _ | _ <;>
    rcases hcc : inp.compileCmd with _ | cc <;>
    simp_all <;> split_ifs <;> simp_all

theorem orchPhase1_cases (inp : OrchInput) (st : MarkerState) :
    (orchPhase1 inp st).2.1 = [] ∨
    ((orchPhase1 inp st).2.1 = [.setPhase 2] ∧
     (orchPhase1 inp st).1 = (orchPhase2 inp (applyOp st (.setPhase 2))).1 ∧
     (orchPhase2 inp (applyOp st (.setPhase 2))).2.1 = []) ∨
    ((orchPhase1 inp st).2.1 = [.setPhase 2, .setPhase 3] ∧
     (orchPhase1 inp st).1 =
       (orchPhase3 inp (applyOp (applyOp st (.setPhase 2)) (.setPhase 3))).1 ∧
     (orchPhase3 inp (applyOp (applyOp st (.setPhase 2)) (.setPhase 3))).2.1 = []) ∨
    ((orchPhase1 inp st).2.1 = [.setPhase 2, .setPhase 3, .setPhase 4] ∧
     (orchPhase1 inp st).1 = (orchPhase4 inp).1 ∧ (orchPhase4 inp).2.1 = []) ∨
    ((orchPhase1 inp st).1 = .noOutput ∧
     (orchPhase1 inp st).2.1 =
       .setPhase 2 :: .setPhase 3 :: .setPhase 4 ::
         .createMarker .testsPassing :: cleanup_all_markers_ops) := by
  unfold orchPhase1
  rcases h2 : orchPhase2 inp (applyOp st (.setPhase 2)) with ⟨d2, ops2, ran2⟩
  rcases orchPhase2_cases inp (applyOp st (.setPhase 2)) with
    h2c | ⟨h2a, h2b, h2d⟩ | ⟨h2a, h2b, h2d⟩ | ⟨h2a, h2b⟩ <;>
    rw [h2] at * <;>
    rcases hrc : st.requirementsConfirmed with _ | _ <;>
    simp_all

/-- An inactive scope (no `tdd-mode` marker) makes the stop hook a no-op. -/
theorem tdd_orchestrator_inactive (inp : OrchInput) (s : MarkerState)
    (hstop : inp.stopHookActive = false) (hmode : s.tddMode = false) :
    tdd_orchestrator inp s = (.noOutput, [], []) := by
  unfold tdd_orchestrator
  simp [hstop, hmode]

/-- If the first invocation wrote nothing, the second is literally the same
computation. -/
theorem idem_stay (inp : OrchInput) (s : MarkerState)
    (h : (tdd_orchestrator inp s).2.1 = []) :
    (tdd_orchestrator inp (applyOps s (tdd_orchestrator inp s).2.1)).1 =
      (tdd_orchestrator inp s).1 ∧
    applyOps (applyOps s (tdd_orchestrator inp s).2.1)
      (tdd_orchestrator inp (applyOps s (tdd_orchestrator inp s).2.1)).2.1 =
      applyOps s (tdd_orchestrator inp s).2.1 := by
  have hnil : applyOps s [] = s := rfl
  rw [h, hnil]
  exact ⟨rfl, by rw [h, hnil]⟩

/-- If the first invocation completed the workflow (no output, `tdd-mode`
removed), the second is a no-op with the same no-output decision. -/
theorem idem_complete (inp : OrchInput) (s : MarkerState)
    (hstop : inp.stopHookActive = false)
    (hd : (tdd_orchestrator inp s).1 = .noOutput)
    (hmode1 : (applyOps s (tdd_orchestrator inp s).2.1).tddMode = false) :
    (tdd_orchestrator inp (applyOps s (tdd_orchestrator inp s).2.1)).1 =
      (tdd_orchestrator inp s).1 ∧
    applyOps (applyOps s (tdd_orchestrator inp s).2.1)
      (tdd_orchestrator inp (applyOps s (tdd_orchestrator inp s).2.1)).2.1 =
      applyOps s (tdd_orchestrator inp s).2.1 := by
  have h2 := tdd_orchestrator_inactive inp (applyOps s (tdd_orchestrator inp s).2.1) hstop hmode1
  rw [h2, hd]
  exact ⟨rfl, rfl⟩

/-- If the first invocation advanced to phase `j` and blocked there, the
second enters directly at `j` with the same flags and reproduces the
decision, writing nothing. -/
theorem idem_advance (inp : OrchInput) (s s' : MarkerState) (j : Int)
    (hstop : inp.stopHookActive = false) (hsup : inp.supervisorMode = false)
    (hcwd : inp.cwdValid = true)
    (hs' : applyOps s (tdd_orchestrator inp s).2.1 = s')
    (hmode' : s'.tddMode = true) (hmm' : mm_get_phase s' = (j, []))
    (hph' : s'.tddPhase.isNone = false)
    (hdec : (orchDispatch inp j s').1 = (tdd_orchestrator inp s).1)
    (hops : (orchDispatch inp j s').2.1 = []) :
    (tdd_orchestrator inp (applyOps s (tdd_orchestrator inp s).2.1)).1 =
      (tdd_orchestrator inp s).1 ∧
    applyOps (applyOps s (tdd_orchestrator inp s).2.1)
      (tdd_orchestrator inp (applyOps s (tdd_orchestrator inp s).2.1)).2.1 =
      applyOps s (tdd_orchestrator inp s).2.1 := by
  have hent := tdd_orchestrator_entry inp s' j hstop hsup hcwd hmode' hmm' hph'
  constructor
  · rw [hs', hent]
    exact hdec
  · rw [hs', hent, hops]
    rfl

/-- One-invocation idempotence from a clean dispatch entry at phase `k`. -/
theorem dispatch_idem (inp : OrchInput) (s : MarkerState) (k : Int)
    (hstop : inp.stopHookActive = false) (hsup : inp.supervisorMode = false)
    (hcwd : inp.cwdValid = true) (hmode : s.tddMode = true)
    (hmm : mm_get_phase s = (k, [])) (hph : s.tddPhase.isNone = false)
    (hk : k = 1 ∨ k = 2 ∨ k = 3 ∨ k = 4) :
    (tdd_orchestrator inp (applyOps s (tdd_orchestrator inp s).2.1)).1 =
      (tdd_orchestrator inp s).1 ∧
    applyOps (applyOps s (tdd_orchestrator inp s).2.1)
      (tdd_orchestrator inp (applyOps s (tdd_orchestrator inp s).2.1)).2.1 =
      applyOps s (tdd_orchestrator inp s).2.1 := by
  have hent := tdd_orchestrator_entry inp s k hstop hsup hcwd hmode hmm hph
  rcases hk with rfl | rfl | rfl | rfl
  · -- entry at phase 1
    have hd1 : orchDispatch inp 1 s = orchPhase1 inp s := by norm_num [orchDispatch]
    rw [hd1] at hent
    rcases orchPhase1_cases inp s with h | ⟨ha, hb, hc⟩ | ⟨ha, hb, hc⟩ | ⟨ha, hb, hc⟩ | ⟨ha, hb⟩
    · exact idem_stay inp s (by rw [hent]; exact h)
    · have hdisp : orchDispatch inp 2 (applyOp s (.setPhase 2)) =
          orchPhase2 inp (applyOp s (.setPhase 2)) := by norm_num [orchDispatch]
      refine idem_advance inp s (applyOp s (.setPhase 2)) 2 hstop hsup hcwd ?_ ?_ ?_ ?_ ?_ ?_
      · rw [hent, ha]; rfl
      · simp [applyOp, hmode]
      · exact mm_get_phase_of_toString _ 2 (by simp [applyOp]) (by right; left; rfl)
      · simp [applyOp]
      · rw [hdisp, hent, hb]
      · rw [hdisp]; exact hc
    · have hdisp : orchDispatch inp 3 (applyOp (applyOp s (.setPhase 2)) (.setPhase 3)) =
          orchPhase3 inp (applyOp (applyOp s (.setPhase 2)) (.setPhase 3)) := by
        norm_num [orchDispatch]
      refine idem_advance inp s (applyOp (applyOp s (.setPhase 2)) (.setPhase 3)) 3
        hstop hsup hcwd ?_ ?_ ?_ ?_ ?_ ?_
      · rw [hent, ha]; rfl
      · simp [applyOp, hmode]
      · exact mm_get_phase_of_toString _ 3 (by simp [applyOp]) (by right; right; left; rfl)
      · simp [applyOp]
      · rw [hdisp, hent, hb]
      · rw [hdisp]; exact hc
    · have hdisp : orchDispatch inp 4
          (applyOp (applyOp (applyOp s (.setPhase 2)) (.setPhase 3)) (.setPhase 4)) =
          orchPhase4 inp := by norm_num [orchDispatch]
      refine idem_advance inp s
        (applyOp (applyOp (applyOp s (.setPhase 2)) (.setPhase 3)) (.setPhase 4)) 4
        hstop hsup hcwd ?_ ?_ ?_ ?_ ?_ ?_
      · rw [hent, ha]; rfl
      · simp [applyOp, hmode]
      · exact mm_get_phase_of_toString _ 4 (by simp [applyOp]) (by right; right; right; rfl)
      · simp [applyOp]
      · rw [hdisp, hent, hb]
      · rw [hdisp]; exact hc
    · refine idem_complete inp s hstop (by rw [hent]; exact ha) ?_
      rw [hent, hb]
      simp [applyOps, applyOp, cleanup_all_markers_ops]
  · -- entry at phase 2
    have hd2 : orchDispatch inp 2 s = orchPhase2 inp s := by norm_num [orchDispatch]
    rw [hd2] at hent
    rcases orchPhase2_cases inp s with h | ⟨ha, hb, hc⟩ | ⟨ha, hb, hc⟩ | ⟨ha, hb⟩
    · exact idem_stay inp s (by rw [hent]; exact h)
    · have hdisp : orchDispatch inp 3 (applyOp s (.setPhase 3)) =
          orchPhase3 inp (applyOp s (.setPhase 3)) := by norm_num [orchDispatch]
      refine idem_advance inp s (applyOp s (.setPhase 3)) 3 hstop hsup hcwd ?_ ?_ ?_ ?_ ?_ ?_
      · rw [hent, ha]; rfl
      · simp [applyOp, hmode]
      · exact mm_get_phase_of_toString _ 3 (by simp [applyOp]) (by right; right; left; rfl)
      · simp [applyOp]
      · rw [hdisp, hent, hb]
      · rw [hdisp]; exact hc
    · have hdisp : orchDispatch inp 4 (applyOp (applyOp s (.setPhase 3)) (.setPhase 4)) =
          orchPhase4 inp := by norm_num [orchDispatch]
      refine idem_advance inp s (applyOp (applyOp s (.setPhase 3)) (.setPhase 4)) 4
        hstop hsup hcwd ?_ ?_ ?_ ?_ ?_ ?_
      · rw [hent, ha]; rfl
      · simp [applyOp, hmode]
      · exact mm_get_phase_of_toString _ 4 (by simp [applyOp]) (by right; right; right; rfl)
      · simp [applyOp]
      · rw [hdisp, hent, hb]
      · rw [hdisp]; exact hc
    · refine idem_complete inp s hstop (by rw [hent]; exact ha) ?_
      rw [hent, hb]
      simp [applyOps, applyOp, cleanup_all_markers_ops]
  · -- entry at phase 3
    have hd3 : orchDispatch inp 3 s = orchPhase3 inp s := by norm_num [orchDispatch]
    rw [hd3] at hent
    rcases orchPhase3_cases inp s with h | ⟨ha, hb, hc⟩ | ⟨ha, hb⟩
    · exact idem_stay inp s (by rw [hent]; exact h)
    · have hdisp : orchDispatch inp 4 (applyOp s (.setPhase 4)) = orchPhase4 inp := by
        norm_num [orchDispatch]
      refine idem_advance inp s (applyOp s (.setPhase 4)) 4 hstop hsup hcwd ?_ ?_ ?_ ?_ ?_ ?_
      · rw [hent, ha]; rfl
      · simp [applyOp, hmode]
      · exact mm_get_phase_of_toString _ 4 (by simp [applyOp]) (by right; right; right; rfl)
      · simp [applyOp]
      · rw [hdisp, hent, hb]
      · rw [hdisp]; exact hc
    · refine idem_complete inp s hstop (by rw [hent]; exact ha) ?_
      rw [hent, hb]
      simp [applyOps, applyOp, cleanup_all_markers_ops]
  · -- entry at phase 4
    have hd4 : orchDispatch inp 4 s = orchPhase4 inp := by norm_num [orchDispatch]
    rw [hd4] at hent
    rcases orchPhase4_cases inp with h | ⟨ha, hb⟩
    · exact idem_stay inp s (by rw [hent]; exact h)
    · refine idem_complete inp s hstop (by rw [hent]; exact ha) ?_
      rw [hent, hb]
      simp [applyOps, applyOp, cleanup_all_markers_ops]

/-- A `MarkerManager.get_phase` call either writes nothing or performs the
single repair `set_phase(1)`. -/
theorem mm_get_phase_cases (st : MarkerState) :
    (mm_get_phase st).2 = [] ∨ mm_get_phase st = (1, [.setPhase 1]) := by
  unfold mm_get_phase
  rcases st.tddPhase with _ | content
  · simp
  · rcases hpi : pyInt (pyStrip content) with _ | n
    · simp [hpi]
    · simp only [hpi]
      split_ifs <;> simp

/-- After a phase read (and its possible repair), re-reading yields the same
phase with no further write. -/
theorem mm_get_phase_after (st : MarkerState) :
    mm_get_phase (applyOps st (mm_get_phase st).2) = ((mm_get_phase st).1, []) := by
  rcases mm_get_phase_cases st with h | h
  · rw [h]
    exact Prod.ext rfl h
  · rw [h]
    have := mm_get_phase_of_toString (applyOps st [.setPhase 1]) 1
      (by simp [applyOps, applyOp]) (by left; rfl)
    simpa using this

/-- The phase read's write trace never touches `tdd-mode`. -/
theorem mm_mode_after (st : MarkerState) :
    (applyOps st (mm_get_phase st).2).tddMode = st.tddMode := by
  rcases mm_get_phase_cases st with h | h
  · rw [h]
    rfl
  · rw [h]
    simp [applyOps, applyOp]

/-- Normal form of one non-supervisor, non-re-entrant, active invocation:
the phase file is read (repaired or initialized as needed, trace `ops0`),
leaving a state `applyOps st ops0` with a clean in-range phase `p`, and the
rest of the invocation is the dispatch from `p` (or a bare no-op when the
working directory is invalid). -/
theorem orch_normalize (inp : OrchInput) (st : MarkerState)
    (hstop : inp.stopHookActive = false) (hsup : inp.supervisorMode = false)
    (hmode : st.tddMode = true) :
    ∃ p ops0, (p = 1 ∨ p = 2 ∨ p = 3 ∨ p = 4) ∧
      (applyOps st ops0).tddMode = true ∧
      mm_get_phase (applyOps st ops0) = (p, []) ∧
      (applyOps st ops0).tddPhase.isNone = false ∧
      tdd_orchestrator inp st =
        (if inp.cwdValid then
          ((tdd_orchestrator inp (applyOps st ops0)).1,
           ops0 ++ (tdd_orchestrator inp (applyOps st ops0)).2.1,
           (tdd_orchestrator inp (applyOps st ops0)).2.2)
         else (.noOutput, ops0, [])) := by
  rcases hph : st.tddPhase with _ | content
  · -- phase file absent: initialized to 1, stale tests-passing cleared
    refine ⟨1, [.setPhase 1, .removeMarker .testsPassing], by left; rfl, ?_, ?_, ?_, ?_⟩
    · simp [applyOps, applyOp, hmode]
    · exact mm_get_phase_of_toString _ 1 (by simp [applyOps, applyOp]) (by left; rfl)
    · simp [applyOps, applyOp]
    · have hmm : mm_get_phase st = (1, []) := by
        unfold mm_get_phase
        rw [hph]
      rcases hcwd : inp.cwdValid with _ | _
      · simp only [hcwd, if_neg (by simp : ¬ (false : Bool) = true)]
        unfold tdd_orchestrator
        simp [hstop, hsup, hmode, hmm, hph, hcwd, applyOps]
      · have hent := tdd_orchestrator_entry inp (applyOps st [.setPhase 1, .removeMarker .testsPassing])
          1 hstop hsup hcwd (by simp [applyOps, applyOp, hmode])
          (mm_get_phase_of_toString _ 1 (by simp [applyOps, applyOp]) (by left; rfl))
          (by simp [applyOps, applyOp])
        simp only [hcwd, if_pos rfl]
        rw [hent]
        unfold tdd_orchestrator
        simp [hstop, hsup, hmode, hmm, hph, hcwd, applyOps]
  · rcases hpi : pyInt (pyStrip content) with _ | n
    · -- unparsable phase: repaired to 1
      have hmm : mm_get_phase st = (1, [.setPhase 1]) := by
        unfold mm_get_phase
        rw [hph]
        simp [hpi]
      refine ⟨1, [.setPhase 1], by left; rfl, ?_, ?_, ?_, ?_⟩
      · simp [applyOps, applyOp, hmode]
      · exact mm_get_phase_of_toString _ 1 (by simp [applyOps, applyOp]) (by left; rfl)
      · simp [applyOps, applyOp]
      · rcases hcwd : inp.cwdValid with _ | _
        · simp only [hcwd, if_neg (by simp : ¬ (false : Bool) = true)]
          unfold tdd_orchestrator
          simp [hstop, hsup, hmode, hmm, hcwd, applyOps, applyOp]
        · have hent := tdd_orchestrator_entry inp (applyOps st [.setPhase 1]) 1 hstop hsup hcwd
            (by simp [applyOps, applyOp, hmode])
            (mm_get_phase_of_toString _ 1 (by simp [applyOps, applyOp]) (by left; rfl))
            (by simp [applyOps, applyOp])
          simp only [hcwd, if_pos rfl]
          rw [hent]
          unfold tdd_orchestrator
          simp [hstop, hsup, hmode, hmm, hcwd, applyOps, applyOp]
    · by_cases hrange : n < 1 ∨ 4 < n
      · -- out-of-range phase: repaired to 1
        have hcond : (decide (n < 1) || decide (4 < n)) = true := by
          rcases hrange with h | h <;> simp [h]
        have hmm : mm_get_phase st = (1, [.setPhase 1]) := by
          unfold mm_get_phase
          rw [hph]
          simp [hpi, hcond]
        refine ⟨1, [.setPhase 1], by left; rfl, ?_, ?_, ?_, ?_⟩
        · simp [applyOps, applyOp, hmode]
        · exact mm_get_phase_of_toString _ 1 (by simp [applyOps, applyOp]) (by left; rfl)
        · simp [applyOps, applyOp]
        · rcases hcwd : inp.cwdValid with _ | _
          · simp only [hcwd, if_neg (by simp : ¬ (false : Bool) = true)]
            unfold tdd_orchestrator
            simp [hstop, hsup, hmode, hmm, hcwd, applyOps, applyOp]
          · have hent := tdd_orchestrator_entry inp (applyOps st [.setPhase 1]) 1 hstop hsup hcwd
              (by simp [applyOps, applyOp, hmode])
              (mm_get_phase_of_toString _ 1 (by simp [applyOps, applyOp]) (by left; rfl))
              (by simp [applyOps, applyOp])
            simp only [hcwd, if_pos rfl]
            rw [hent]
            unfold tdd_orchestrator
            simp [hstop, hsup, hmode, hmm, hcwd, applyOps, applyOp]
      · -- valid in-range phase: read clean, nothing written
        have hcond : (decide (n < 1) || decide (4 < n)) = false := by
          simp only [Bool.or_eq_false_iff, decide_eq_false_iff_not]
          omega
        have hmm : mm_get_phase st = (n, []) := by
          unfold mm_get_phase
          rw [hph]
          simp [hpi, hcond]
        have hn : n = 1 ∨ n = 2 ∨ n = 3 ∨ n = 4 := by omega
        refine ⟨n, [], hn, by simpa [applyOps] using hmode, by simpa [applyOps] using hmm,
          by simp [applyOps, hph], ?_⟩
        rcases hcwd : inp.cwdValid with _ | _
        · simp only [hcwd, if_neg (by simp : ¬ (false : Bool) = true)]
          unfold tdd_orchestrator
          simp [hstop, hsup, hmode, hmm, hph, hcwd, applyOps]
        · have hent := tdd_orchestrator_entry inp (applyOps st []) n hstop hsup hcwd
            (by simpa [applyOps] using hmode) (by simpa [applyOps] using hmm)
            (by simp [applyOps, hph])
          simp only [hcwd, if_pos rfl]
          rw [hent]
          unfold tdd_orchestrator
          simp [hstop, hsup, hmode, hmm, hph, hcwd, applyOps]

/-- Idempotence core: a second invocation with the same external command
outcomes and unchanged completion flags reproduces the first invocation's
decision and performs no further state change. -/
theorem tdd_orchestrator_idem_core (inp : OrchInput) (st : MarkerState) :
    (tdd_orchestrator inp (applyOps st (tdd_orchestrator inp st).2.1)).1 =
      (tdd_orchestrator inp st).1 ∧
    applyOps (applyOps st (tdd_orchestrator inp st).2.1)
      (tdd_orchestrator inp (applyOps st (tdd_orchestrator inp st).2.1)).2.1 =
      applyOps st (tdd_orchestrator inp st).2.1 := by
  rcases hstop : inp.stopHookActive with _ | _
  · rcases hmode : st.tddMode with _ | _
    · have h1 := tdd_orchestrator_inactive inp st hstop hmode
      simp [h1, applyOps]
    · rcases hsup : inp.supervisorMode with _ | _
      · -- main (non-supervisor) path
        obtain ⟨p, ops0, hp, hmode0, hmm0, hph0, hchar⟩ := orch_normalize inp st hstop hsup hmode
        rcases hcwd : inp.cwdValid with _ | _
        · rw [hcwd] at hchar
          simp only [if_neg (by simp : ¬ (false : Bool) = true)] at hchar
          have h2 : tdd_orchestrator inp (applyOps st ops0) = (.noOutput, [], []) := by
            unfold tdd_orchestrator
            rw [hmm0]
            simp [hstop, hsup, hmode0, hph0, hcwd, applyOps_nil]
          rw [hchar]
          try dsimp only
          rw [h2]
          exact ⟨rfl, rfl⟩
        · rw [hcwd] at hchar
          simp only [if_true] at hchar
          have hkey := dispatch_idem inp (applyOps st ops0) p hstop hsup hcwd hmode0 hmm0 hph0 hp
          have hs1 : applyOps st (tdd_orchestrator inp st).2.1 =
              applyOps (applyOps st ops0) (tdd_orchestrator inp (applyOps st ops0)).2.1 := by
            rw [hchar]
            try dsimp only
            rw [applyOps_append]
          constructor
          · rw [hs1, hchar]
            try dsimp only
            exact hkey.1
          · rw [hs1]
            exact hkey.2
      · -- supervisor path
        have hsupr : ∀ s : MarkerState, s.tddMode = true →
            tdd_orchestrator inp s =
              ((if inp.phaseAgents (mm_get_phase s).1 = "" then .noOutput
                else .approveD (inp.phaseAgents (mm_get_phase s).1)),
               (mm_get_phase s).2, []) := by
          intro s hm
          unfold tdd_orchestrator
          simp [hstop, hm, hsup]
        have h1 := hsupr st hmode
        have hmode1 : (applyOps st (tdd_orchestrator inp st).2.1).tddMode = true := by
          rw [h1]
          try dsimp only
          rw [mm_mode_after]
          exact hmode
        have hmm1 : mm_get_phase (applyOps st (tdd_orchestrator inp st).2.1) =
            ((mm_get_phase st).1, []) := by
          rw [h1]
          try dsimp only
          exact mm_get_phase_after st
        have h2 := hsupr (applyOps st (tdd_orchestrator inp st).2.1) hmode1
        constructor
        · rw [h2]
          try dsimp only
          rw [hmm1]
          try dsimp only
          rw [h1]
        · rw [h2]
          try dsimp only
          rw [hmm1]
          try rfl
  · have h1 : tdd_orchestrator inp st = (.noOutput, [], []) := by
      unfold tdd_orchestrator
      simp [hstop]
    simp [h1, applyOps]

/-- Claim C6: running the stop-hook orchestrator twice with identical
external command outcomes and no completion-flag change in between yields
the same decision both times, and the phase read after the second run equals
the phase read after the first — no silent progression. -/
theorem C6_orchestrator_idempotent (inp : OrchInput) (st : MarkerState) :
    (tdd_orchestrator inp (applyOps st (tdd_orchestrator inp st).2.1)).1 =
      (tdd_orchestrator inp st).1 ∧
    (mm_get_phase (applyOps (applyOps st (tdd_orchestrator inp st).2.1)
        (tdd_orchestrator inp (applyOps st (tdd_orchestrator inp st).2.1)).2.1)).1 =
      (mm_get_phase (applyOps st (tdd_orchestrator inp st).2.1)).1 := by
  obtain ⟨h1, h2⟩ := tdd_orchestrator_idem_core inp st
  exact ⟨h1, by rw [h2]⟩

/-- Witness for C6 at a concrete input: phase 1, requirements not confirmed
(both invocations block with the phase-1 reason). -/
theorem C6_orchestrator_idempotent_witness :
    (tdd_orchestrator (p4Input 0 1) (applyOps (stWith (some "1"))
        (tdd_orchestrator (p4Input 0 1) (stWith (some "1"))).2.1)).1 =
      (tdd_orchestrator (p4Input 0 1) (stWith (some "1"))).1 ∧
    (mm_get_phase (applyOps (applyOps (stWith (some "1"))
        (tdd_orchestrator (p4Input 0 1) (stWith (some "1"))).2.1)
        (tdd_orchestrator (p4Input 0 1) (applyOps (stWith (some "1"))
          (tdd_orchestrator (p4Input 0 1) (stWith (some "1"))).2.1)).2.1)).1 =
      (mm_get_phase (applyOps (stWith (some "1"))
        (tdd_orchestrator (p4Input 0 1) (stWith (some "1"))).2.1)).1 :=
  C6_orchestrator_idempotent (p4Input 0 1) (stWith (some "1"))

end TDDWorkflow
